import Mathlib

/-!
Verification development for the cosmos client orchestration layer of
gitshock-labs/ignite-cli and for the paginated query builder
`ignite/pkg/cosmostxcollector/query`.

The query builder (`query.go`) is embedded directly from its Go source.

The client orchestration core (`cosmosclient`) is present in the repository
only through its test suite (`cosmosclient_test.go`); the production file is
not part of the source tree given here.  Its operations are therefore
modelled from the specification, with every behaviour that the test suite
pins down (concrete error strings, call orders, the simulated-gas buffer,
default values) reproduced exactly as the tests demand.  Network
collaborators (node RPC, account retriever, bank query client, gasometer,
faucet client) are represented by response oracles, and every operation
returns, next to its result, the ordered list of network calls it issued,
so that claims about "which calls happen before a failure" are statable.

Machine integers: the Go code uses uint64 gas values and int64 block
heights; gas arithmetic in the modelled ranges never overflows, so gas is
a Nat with an explicit bound check where the code parses a uint64, and
heights are Int.
-/

namespace cosmosclient

/-- Single-quote character, used to build the exact Go error strings. -/
def sq : String := String.singleton (Char.ofNat 39)

/-- Coin: a denomination with an integer amount (sdktypes.Coin). -/
structure Coin where
  denom : String
  amount : Nat
deriving Repr, DecidableEq

/-- Network calls a client operation can issue, in the order they happen.
Each constructor is one collaborator round trip from the spec section 6. -/
inductive NetCall where
  | ensureExists (addr : String)
  | getAccountNumberSequence (addr : String)
  | balanceQuery (addr denom : String)
  | faucetTransfer (addr : String)
  | calculateGas
  | statusQuery
  | txQuery (bytes : List Nat)
deriving Repr, DecidableEq

/-- Signed transaction artifact: message count (payloads are opaque to the
core), final gas limit, fee, and the account number / sequence captured
from the node. -/
structure Tx where
  msgCount : Nat
  gasLimit : Nat
  fee : List Coin
  accountNumber : Nat
  sequence : Nat
deriving Repr, DecidableEq

/-- Modelled from the spec: the client configuration (spec section 3,
"Client Configuration"), restricted to the fields the modelled operations
read.  Fee and gas-price strings are represented by their parsed coin
lists, empty meaning unset (cosmos-sdk treats a zero coin set as unset).
The gas-adjustment factor is carried in the configuration (default 1, per
TestNew) but is applied inside the estimation collaborator, not by the
client layer itself: TestClientCreateTx pins CalculateGas = 42 to a final
gas limit of 20042. -/
structure ClientConfig where
  fees : List Coin
  gasPrices : List Coin
  gas : String
  gasAdjustment : Nat
  useFaucet : Bool
  faucetDenom : String
  faucetMinAmount : Nat
deriving Repr, DecidableEq

/-- Collaborator response oracles: what each mocked network service would
answer.  `balances` lists the successive bank balance responses. -/
structure Collab where
  balances : List Nat
  transfer : Except String Unit
  ensureExistsErr : Option String
  accountNumberSeq : Except String (Nat × Nat)
  calculateGas : Except String Nat
deriving Repr

/-- Default gas limit, pinned by TestNew (txf.Gas() = 300000). -/
def defaultGasLimit : Nat := 300000

/-- Buffer added to a simulated gas value, pinned by TestClientCreateTx:
the gasometer reports 42 and the resulting gas limit is 20042. -/
def simulationGasBuffer : Nat := 20000

/-- Conflict error string, pinned by TestClientCreateTx. -/
def conflictMsg : String := "cannot provide both fees and gas prices"

/-- A fallible step together with the network calls it issued. -/
abbrev Step (α : Type) := Except String α × List NetCall

/-- Sequencing of traced fallible steps: on error stop, otherwise run the
continuation and concatenate the call traces. -/
def andThen {α β : Type} (a : Step α) (f : α → Step β) : Step β :=
  match a with
  | (.error e, tr) => (.error e, tr)
  | (.ok x, tr) =>
    match f x with
    | (r, tr2) => (r, tr ++ tr2)

/-- Modelled from the spec: the Funding Gate (spec section 4.2).  Missing
source: cosmosclient.Client.makeSureAccountHasTokens.  Query the balance
for (address, denom); if it is at least the minimum return immediately;
otherwise issue one funding request, re-query the balance once, and return
regardless of whether the new balance clears the threshold. -/
def makeSureAccountHasTokens (addr denom : String) (minAmount : Nat)
    (balances : List Nat) (transfer : Except String Unit) : Step Unit :=
  match balances with
  | [] => (.error "balance query failed", [.balanceQuery addr denom])
  | b :: rest =>
    if minAmount ≤ b then
      (.ok (), [.balanceQuery addr denom])
    else
      match transfer with
      | .error e =>
        (.error ("faucet server request failed: " ++ e),
         [.balanceQuery addr denom, .faucetTransfer addr])
      | .ok () =>
        match rest with
        | [] =>
          (.error "balance query failed",
           [.balanceQuery addr denom, .faucetTransfer addr,
            .balanceQuery addr denom])
        | _ :: _ =>
          (.ok (),
           [.balanceQuery addr denom, .faucetTransfer addr,
            .balanceQuery addr denom])

/-- Modelled from the spec: the Transaction Factory Preparer (spec section
4.3).  Missing source: cosmosclient.Client.prepareFactory.  The
account-existence check failure is returned verbatim, with no wrapping
(pinned by the TestClientCreateTx case expecting exactly "nope"); on
success the account number and sequence are fetched. -/
def prepareFactory (addr : String) (col : Collab) : Step (Nat × Nat) :=
  match col.ensureExistsErr with
  | some e => (.error e, [.ensureExists addr])
  | none =>
    match col.accountNumberSeq with
    | .error e => (.error e, [.ensureExists addr, .getAccountNumberSequence addr])
    | .ok ns => (.ok ns, [.ensureExists addr, .getAccountNumberSequence addr])

/-- Base-10 unsigned 64-bit parse, following Go strconv.ParseUint(s, 10, 64):
digits only, nonempty, value below 2^64. -/
def parseUint64 (s : String) : Option Nat :=
  let cs := s.toList
  if cs.isEmpty then none
  else if cs.all Char.isDigit then
    let n := cs.foldl (fun acc c => acc * 10 + (c.toNat - 48)) 0
    if n < 18446744073709551616 then some n else none
  else none

/-- Modelled from the spec: gas limit selection (spec section 4.4).
Missing source: the gas branch of cosmosclient.Client.CreateTx.  An empty
or "auto" gas string triggers one simulation through the gasometer and the
result gets the fixed buffer added (pinned by TestClientCreateTx: 42
becomes 20042); any other string is parsed as a literal uint64 and an
unparseable literal silently falls back to the default gas limit. -/
def resolveGas (cfg : ClientConfig) (col : Collab) : Step Nat :=
  if cfg.gas ≠ "" ∧ cfg.gas ≠ "auto" then
    match parseUint64 cfg.gas with
    | some g => (.ok g, [])
    | none => (.ok defaultGasLimit, [])
  else
    match col.calculateGas with
    | .error e => (.error e, [.calculateGas])
    | .ok g => (.ok (g + simulationGasBuffer), [.calculateGas])

/-- Modelled from the spec: the Gas Policy Resolver (spec section 4.4).
Missing source: the gas and fee handling of cosmosclient.Client.CreateTx
together with the cosmos-sdk factory it drives.  If both a fee and a
gas-price configuration are set the resolver fails with the conflict
error; otherwise the gas limit is resolved first and a gas-price-derived
fee is computed from the final gas limit (price times limit, per denom). -/
def resolveGasFee (cfg : ClientConfig) (col : Collab) : Step (Nat × List Coin) :=
  if cfg.fees ≠ [] ∧ cfg.gasPrices ≠ [] then
    (.error conflictMsg, [])
  else
    andThen (resolveGas cfg col) fun gas =>
      let fee :=
        if cfg.fees ≠ [] then cfg.fees
        else cfg.gasPrices.map fun c => { denom := c.denom, amount := c.amount * gas }
      (.ok (gas, fee), [])

/-- Modelled from the spec: the post-gate stage of CreateTx (spec sections
4.3 to 4.5): factory preparation, gas/fee resolution, message validation
and transaction construction. -/
def prepareAndBuild (cfg : ClientConfig) (col : Collab) (addr : String)
    (msgCount : Nat) : Step Tx :=
  andThen (prepareFactory addr col) fun ns =>
  andThen (resolveGasFee cfg col) fun gf =>
    if msgCount = 0 then (.error "no message to send", [])
    else
      (.ok { msgCount := msgCount, gasLimit := gf.1, fee := gf.2,
             accountNumber := ns.1, sequence := ns.2 }, [])

/-- Modelled from the spec: CreateTx (spec sections 2, 4.2 to 4.5).
Missing source: cosmosclient.Client.CreateTx.  Runs the funding gate when
the faucet is enabled, prepares the transaction factory from on-chain
account state, resolves the gas and fee policy, validates that at least
one message is supplied, and produces the transaction artifact.  The
account is already resolved by the caller; `addr` is its address and
`msgCount` the number of messages. -/
def createTx (cfg : ClientConfig) (col : Collab) (addr : String)
    (msgCount : Nat) : Step Tx :=
  andThen
    (if cfg.useFaucet then
      makeSureAccountHasTokens addr cfg.faucetDenom cfg.faucetMinAmount
        col.balances col.transfer
     else (.ok (), []))
    fun _ => prepareAndBuild cfg col addr msgCount

/-- Tests whether a network call is a gas simulation. -/
def isCalculateGas : NetCall → Bool
  | .calculateGas => true
  | _ => false

/-- Tests whether a network call is a bank balance query. -/
def isBalanceQuery : NetCall → Bool
  | .balanceQuery _ _ => true
  | _ => false

/-- Tests whether a network call is a faucet funding request. -/
def isFaucetTransfer : NetCall → Bool
  | .faucetTransfer _ => true
  | _ => false

/-- Substring test: does `pat` occur contiguously inside `s`?  Used for the
"not found" retry condition (Go strings.Contains). -/
def containsSubstr (s pat : String) : Bool :=
  s.toList.tails.any fun t => pat.toList.isPrefixOf t

/-- Value of one hexadecimal digit character, following Go
encoding/hex fromHexChar. -/
def hexDigitVal (c : Char) : Option Nat :=
  if 48 ≤ c.toNat ∧ c.toNat ≤ 57 then some (c.toNat - 48)
  else if 97 ≤ c.toNat ∧ c.toNat ≤ 102 then some (c.toNat - 97 + 10)
  else if 65 ≤ c.toNat ∧ c.toNat ≤ 70 then some (c.toNat - 65 + 10)
  else none

/-- Uppercase hexadecimal digit character for a value below 16. -/
def hexUpperDigit (n : Nat) : Char :=
  if n < 10 then Char.ofNat (48 + n) else Char.ofNat (55 + n)

/-- Four-digit uppercase hexadecimal rendering of a code point, as in the
Go formatting verb used by hex.InvalidByteError for code points below
0x10000 (all inputs exercised here are ASCII). -/
def hexUpper4 (n : Nat) : String :=
  String.mk [hexUpperDigit ((n / 4096) % 16), hexUpperDigit ((n / 256) % 16),
             hexUpperDigit ((n / 16) % 16), hexUpperDigit (n % 16)]

/-- Error string of Go encoding/hex InvalidByteError. -/
def invalidByteMsg (c : Char) : String :=
  "encoding/hex: invalid byte: U+" ++ hexUpper4 c.toNat ++ " " ++ sq
    ++ String.singleton c ++ sq

/-- Error string of Go encoding/hex ErrLength. -/
def oddLengthMsg : String := "encoding/hex: odd length hex string"

/-- Hex decoding of a character list, following Go encoding/hex Decode:
characters are consumed in pairs, the first invalid character is reported,
and an odd-length input whose characters are all valid reports the length
error. -/
def decodeHexChars : List Char → Except String (List Nat)
  | [] => .ok []
  | [c] =>
    match hexDigitVal c with
    | none => .error (invalidByteMsg c)
    | some _ => .error oddLengthMsg
  | a :: b :: rest =>
    match hexDigitVal a with
    | none => .error (invalidByteMsg a)
    | some hi =>
      match hexDigitVal b with
      | none => .error (invalidByteMsg b)
      | some lo => (decodeHexChars rest).map fun l => (hi * 16 + lo) :: l

/-- Hex decoding of a string (Go encoding/hex DecodeString).  Go works on
bytes; the model works on characters, which agrees on the ASCII inputs the
client deals in. -/
def decodeHexString (s : String) : Except String (List Nat) :=
  decodeHexChars s.toList

/-- Node address used by the test suite configuration. -/
def defaultNodeAddress : String := "http://localhost:26657"

/-- Wrapping applied to every RPC error, pinned by TestClientStatus and
TestClientWaitForTx: "error while requesting node '<addr>': <err>". -/
def nodeWrap (e : String) : String :=
  "error while requesting node " ++ sq ++ defaultNodeAddress ++ sq ++ ": " ++ e

/-- Timeout error string of WaitForBlockHeight, pinned by
TestClientWaitForBlockHeight: the message names the waited-for condition
and the deadline cause. -/
def timeoutMsg : String :=
  "timeout exceeded waiting for block: context deadline exceeded"

/-- One node status response: a latest block height, or a transport error. -/
abbrev StatusResp := Except String Int

/-- Result of a polling primitive: outcome, network calls issued, and the
status responses not yet consumed (the polling loops share one node). -/
structure PollOut (α : Type) where
  result : Except String α
  calls : List NetCall
  leftover : List StatusResp

/-- Modelled from the spec: WaitForBlockHeight (spec section 4.6).
Missing source: cosmosclient.Client.WaitForBlockHeight.  Each iteration
queries the node status; a reported height at or above the target returns
success immediately; otherwise the loop sleeps one fixed interval and
retries, and an expired deadline surfaces the timeout error.  The caller
deadline is modelled as the number `ticks` of sleep intervals it still
allows, and the successive status responses as the oracle list; a status
transport error propagates immediately with the node wrap. -/
def waitForBlockHeight (target : Int) :
    List StatusResp → Nat → PollOut Unit
  | [], _ => ⟨.error "status oracle exhausted", [], []⟩
  | .error e :: rest, _ => ⟨.error (nodeWrap e), [.statusQuery], rest⟩
  | .ok h :: rest, ticks =>
    if target ≤ h then ⟨.ok (), [.statusQuery], rest⟩
    else
      match ticks with
      | 0 => ⟨.error timeoutMsg, [.statusQuery], rest⟩
      | t + 1 =>
        let out := waitForBlockHeight target rest t
        ⟨out.result, .statusQuery :: out.calls, out.leftover⟩

/-- Modelled from the spec: waiting for the next block (the
WaitingNextBlock state of spec section 4.6): read the current latest
height from the node status, then block on WaitForBlockHeight at that
height plus one. -/
def waitForNextBlock (statuses : List StatusResp) (ticks : Nat) :
    PollOut Unit :=
  match statuses with
  | [] => ⟨.error "status oracle exhausted", [], []⟩
  | .error e :: rest => ⟨.error (nodeWrap e), [.statusQuery], rest⟩
  | .ok h :: rest =>
    let out := waitForBlockHeight (h + 1) rest ticks
    ⟨out.result, .statusQuery :: out.calls, out.leftover⟩

/-- Transaction lookup result returned by the node (ctypes.ResultTx,
reduced to the hash it carries). -/
structure TxResult where
  hash : List Nat
deriving Repr, DecidableEq

/-- Modelled from the spec: the polling loop of WaitForTx (spec section
4.6) after hash decoding.  Each iteration queries the transaction by hash;
an error whose node-wrapped text contains "not found" is the sole
retryable condition and triggers one wait-for-next-block cycle before the
next lookup; any other lookup error is terminal, wrapped with the hash for
context; a successful lookup returns the transaction result. -/
def waitForTxLoop (hash : String) (bz : List Nat) :
    List (Except String TxResult) → List StatusResp → Nat →
      Except String TxResult × List NetCall
  | [], _, _ => (.error "tx oracle exhausted", [])
  | .ok r :: _, _, _ => (.ok r, [.txQuery bz])
  | .error e :: rest, statuses, ticks =>
    let e2 := nodeWrap e
    if containsSubstr e2 "not found" then
      let w := waitForNextBlock statuses ticks
      match w.result with
      | .error we => (.error we, .txQuery bz :: w.calls)
      | .ok () =>
        let (r, tr) := waitForTxLoop hash bz rest w.leftover ticks
        (r, .txQuery bz :: (w.calls ++ tr))
    else
      (.error ("fetching tx " ++ sq ++ hash ++ sq ++ ": " ++ e2),
       [.txQuery bz])

/-- Modelled from the spec: WaitForTx (spec section 4.6).  Missing source:
cosmosclient.Client.WaitForTx.  The input hash must decode from hex;
malformed input fails immediately, before any network call, with an error
that names the offending input; otherwise the polling loop runs. -/
def waitForTx (hash : String) (txResps : List (Except String TxResult))
    (statuses : List StatusResp) (ticks : Nat) :
    Except String TxResult × List NetCall :=
  match decodeHexString hash with
  | .error e =>
    (.error ("unable to decode tx hash " ++ sq ++ hash ++ sq ++ ": " ++ e), [])
  | .ok bz => waitForTxLoop hash bz txResps statuses ticks

/-- Resolved account handle of the keyring collaborator. -/
structure Account where
  name : String
  address : String
deriving Repr, DecidableEq

/-- Keyring collaborator interface: lookup by name and lookup by resolved
address (consumed, not reimplemented, per spec section 1). -/
structure Keyring where
  byName : String → Option Account
  byAddress : String → Option Account

/-- Keyring miss error, pinned by TestClientAccount and TestClientAddress:
`account "<id>" does not exist`. -/
def notExistMsg (id : String) : String :=
  "account \"" ++ id ++ "\" does not exist"

/-- Modelled from the spec: the Account Resolver (spec section 4.1).
Missing source: cosmosclient.Client.Account.  The bech32 address decoder
(`decode`) is an external collaborator; an identifier that parses as a
valid address under the configured prefix is looked up by address, and a
failure there reports the keyring miss; any other identifier is treated as
a name, and when the name lookup also misses, the bech32 decode error is
surfaced so that it stays distinguishable from a keyring miss. -/
def resolveAccount (decode : String → Except String Unit) (kr : Keyring)
    (id : String) : Except String Account :=
  match decode id with
  | .ok _ =>
    match kr.byAddress id with
    | some a => .ok a
    | none => .error (notExistMsg id)
  | .error e =>
    match kr.byName id with
    | some a => .ok a
    | none => .error e

end cosmosclient

namespace query

/-- DefaultPageSize defines the default number of results to select per
page (query.go). -/
def DefaultPageSize : Nat := 30

/-- SortBy contains info on how to sort query results (query.go).  Entity
and Field are uint wrappers in Go, modelled as Nat. -/
structure SortBy where
  field : Nat
  order : String
deriving Repr, DecidableEq

/-- A view or function call selectable by a query (package call, external
to this file, observed through its name). -/
structure Call where
  name : String
deriving Repr, DecidableEq

/-- A filter to apply to a query (interface Filter, observed through the
filtered field name and the rendering of its value). -/
structure Filter where
  field : String
  valueRepr : String
deriving Repr, DecidableEq

/-- Query describes how to select values from a data backend (query.go).
The uint32 page fields are modelled as Nat: the Go code only assigns and
compares them, it never does arithmetic that could wrap. -/
structure Query where
  entity : Nat
  fields : List Nat
  sortBy : List SortBy
  pageSize : Nat
  atPage : Nat
  call : Call
  filters : List Filter
deriving Repr, DecidableEq

/-- New creates a new query (query.go); the remaining fields take the Go
zero values. -/
def New (e : Nat) (f : List Nat) : Query :=
  { entity := e, fields := f, sortBy := [], pageSize := DefaultPageSize,
    atPage := 1, call := { name := "" }, filters := [] }

/-- NewCall creates a new query that selects results from a view or
function (query.go). -/
def NewCall (c : Call) : Query :=
  { entity := 0, fields := [], sortBy := [], pageSize := DefaultPageSize,
    atPage := 1, call := c, filters := [] }

/-- GetEntity returns the name of the data entity to select. -/
def Query.GetEntity (q : Query) : Nat := q.entity

/-- GetFields returns the list of data entity fields to select. -/
def Query.GetFields (q : Query) : List Nat := q.fields

/-- GetSortBy returns the sort info for the query. -/
def Query.GetSortBy (q : Query) : List SortBy := q.sortBy

/-- GetPageSize returns the size for each query result set. -/
def Query.GetPageSize (q : Query) : Nat := q.pageSize

/-- GetAtPage returns the result set page to query. -/
def Query.GetAtPage (q : Query) : Nat := q.atPage

/-- GetCall returns the function or view to query. -/
def Query.GetCall (q : Query) : Call := q.call

/-- GetFilters returns the list of filters to apply to the query. -/
def Query.GetFilters (q : Query) : List Filter := q.filters

/-- IsPagingEnabled checks if the query results should be paginated. -/
def Query.IsPagingEnabled (q : Query) : Bool := decide (0 < q.pageSize)

/-- IsCall checks if the query is a call to a function or view. -/
def Query.IsCall (q : Query) : Bool := q.call.name ≠ ""

/-- AtPage assigns a page to select.  Pages start from page one, so
assigning page zero selects the first page (query.go). -/
def Query.AtPage (q : Query) (page : Nat) : Query :=
  if page = 0 then { q with atPage := 1 } else { q with atPage := page }

/-- WithPageSize assigns the number of results to select per page.  The
default page size is used when size zero is assigned (query.go). -/
def Query.WithPageSize (q : Query) (size : Nat) : Query :=
  if size = 0 then { q with pageSize := DefaultPageSize }
  else { q with pageSize := size }

/-- WithoutPaging disables the paging of results (query.go). -/
def Query.WithoutPaging (q : Query) : Query := { q with pageSize := 0 }

/-- AppendSortBy appends ordering information for one or more fields
(query.go): one SortBy entry per field, in order. -/
def Query.AppendSortBy (q : Query) (order : String) (fields : List Nat) :
    Query :=
  { q with sortBy := q.sortBy ++ fields.map fun f => { field := f, order := order } }

/-- AppendFilters appends one or more filters to apply to the query
(query.go). -/
def Query.AppendFilters (q : Query) (f : List Filter) : Query :=
  { q with filters := q.filters ++ f }

/-- Queries reachable through the constructors and combinators of the
query package. -/
inductive Reachable : Query → Prop
  | new (e : Nat) (f : List Nat) : Reachable (New e f)
  | newCall (c : Call) : Reachable (NewCall c)
  | atPage (q : Query) (p : Nat) : Reachable q → Reachable (q.AtPage p)
  | withPageSize (q : Query) (s : Nat) : Reachable q → Reachable (q.WithPageSize s)
  | withoutPaging (q : Query) : Reachable q → Reachable q.WithoutPaging
  | appendSortBy (q : Query) (o : String) (f : List Nat) :
      Reachable q → Reachable (q.AppendSortBy o f)
  | appendFilters (q : Query) (f : List Filter) :
      Reachable q → Reachable (q.AppendFilters f)

end query

namespace cosmosclient

theorem andThen_ok {α β : Type} {a : Step α} {x : α} {tr : List NetCall}
    (f : α → Step β) (h : a = (.ok x, tr)) :
    andThen a f = ((f x).1, tr ++ (f x).2) := by
  subst h
  rcases hfx : f x with ⟨r, tr2⟩
  simp [andThen, hfx]

theorem andThen_error {α β : Type} {a : Step α} {e : String}
    {tr : List NetCall} (f : α → Step β) (h : a = (.error e, tr)) :
    andThen a f = (.error e, tr) := by
  subst h
  rfl

theorem andThen_eq_ok {α β : Type} {a : Step α} {f : α → Step β} {y : β}
    {tr : List NetCall} (h : andThen a f = (.ok y, tr)) :
    ∃ x tr1 tr2, a = (.ok x, tr1) ∧ f x = (.ok y, tr2) ∧ tr = tr1 ++ tr2 := by
  rcases a with ⟨r, tr1⟩
  cases r with
  | error e => simp [andThen] at h
  | ok x =>
    rcases hfx : f x with ⟨r2, tr2⟩
    simp [andThen, hfx] at h
    exact ⟨x, tr1, tr2, rfl, by rw [hfx, h.1], h.2.symm⟩

theorem mem_andThen {α β : Type} {a : Step α} {f : α → Step β} {c : NetCall}
    (h : c ∈ (andThen a f).2) : c ∈ a.2 ∨ ∃ x, c ∈ (f x).2 := by
  rcases a with ⟨r, tr⟩
  cases r with
  | error e => exact Or.inl h
  | ok x =>
    rcases hfx : f x with ⟨r2, tr2⟩
    simp only [andThen, hfx] at h
    rcases List.mem_append.mp h with h2 | h2
    · exact Or.inl h2
    · exact Or.inr ⟨x, by rw [hfx]; exact h2⟩

theorem prepareFactory_eq_ok {addr : String} {col : Collab} {ns : Nat × Nat}
    {tr : List NetCall} (h : prepareFactory addr col = (.ok ns, tr)) :
    col.ensureExistsErr = none ∧ col.accountNumberSeq = .ok ns ∧
      tr = [.ensureExists addr, .getAccountNumberSequence addr] := by
  unfold prepareFactory at h
  rcases he : col.ensureExistsErr with _ | e
  · rw [he] at h
    rcases ha : col.accountNumberSeq with e2 | ns2
    · rw [ha] at h
      simp at h
    · rw [ha] at h
      simp at h
      exact ⟨rfl, by rw [h.1], h.2.symm⟩
  · rw [he] at h
    simp at h

theorem resolveGas_auto {cfg : ClientConfig} {col : Collab} {g : Nat}
    (hgas : cfg.gas = "" ∨ cfg.gas = "auto")
    (hcg : col.calculateGas = .ok g) :
    resolveGas cfg col = (.ok (g + simulationGasBuffer), [.calculateGas]) := by
  unfold resolveGas
  have hn : ¬(cfg.gas ≠ "" ∧ cfg.gas ≠ "auto") := by
    rcases hgas with h | h <;> simp [h]
  rw [if_neg hn, hcg]

theorem resolveGasFee_ok {cfg : ClientConfig} {col : Collab} {x : Nat}
    {tr1 : List NetCall}
    (hc : ¬(cfg.fees ≠ [] ∧ cfg.gasPrices ≠ []))
    (ha : resolveGas cfg col = (.ok x, tr1)) :
    resolveGasFee cfg col
      = (.ok (x, if cfg.fees ≠ [] then cfg.fees
                 else cfg.gasPrices.map
                   fun c => { denom := c.denom, amount := c.amount * x }),
         tr1) := by
  unfold resolveGasFee
  rw [if_neg hc, andThen_ok _ ha]
  simp

theorem resolveGasFee_eq_ok {cfg : ClientConfig} {col : Collab}
    {gf : Nat × List Coin} {tr : List NetCall}
    (h : resolveGasFee cfg col = (.ok gf, tr)) :
    resolveGas cfg col = (.ok gf.1, tr) ∧
      gf.2 = (if cfg.fees ≠ [] then cfg.fees
              else cfg.gasPrices.map
                fun c => { denom := c.denom, amount := c.amount * gf.1 }) := by
  by_cases hc : cfg.fees ≠ [] ∧ cfg.gasPrices ≠ []
  · unfold resolveGasFee at h
    rw [if_pos hc] at h
    simp at h
  · rcases hg : resolveGas cfg col with ⟨r, tr1⟩
    cases r with
    | error e =>
      unfold resolveGasFee at h
      rw [if_neg hc, andThen_error _ hg] at h
      simp at h
    | ok x =>
      rw [resolveGasFee_ok hc hg] at h
      have h1 : (x, (if cfg.fees ≠ [] then cfg.fees
                     else cfg.gasPrices.map
                       fun c => { denom := c.denom, amount := c.amount * x }))
          = gf := by
        have h0 := congrArg Prod.fst h
        simpa using h0
      have h2 : tr1 = tr := congrArg Prod.snd h
      subst h1
      subst h2
      exact ⟨rfl, rfl⟩

theorem gate_calls {addr denom : String} {m : Nat} {bs : List Nat}
    {t : Except String Unit} :
    ∀ c ∈ (makeSureAccountHasTokens addr denom m bs t).2,
      c = .balanceQuery addr denom ∨ c = .faucetTransfer addr := by
  intro c hc
  rcases bs with _ | ⟨b, rest⟩
  · simp [makeSureAccountHasTokens] at hc
    simp [hc]
  · by_cases hb : m ≤ b
    · simp [makeSureAccountHasTokens, hb] at hc
      simp [hc]
    · rcases t with e | u
      · simp [makeSureAccountHasTokens, hb] at hc
        rcases hc with hc | hc <;> simp [hc]
      · rcases rest with _ | ⟨b2, rest2⟩ <;>
          · simp [makeSureAccountHasTokens, hb] at hc
            rcases hc with hc | hc | hc <;> simp [hc]

theorem prepareFactory_calls {addr : String} {col : Collab} :
    ∀ c ∈ (prepareFactory addr col).2,
      c = .ensureExists addr ∨ c = .getAccountNumberSequence addr := by
  intro c hc
  rcases he : col.ensureExistsErr with _ | e
  · rcases ha : col.accountNumberSeq with e2 | ns <;>
      · simp [prepareFactory, he, ha] at hc
        rcases hc with hc | hc <;> simp [hc]
  · simp [prepareFactory, he] at hc
    simp [hc]

theorem resolveGas_calls {cfg : ClientConfig} {col : Collab} :
    ∀ c ∈ (resolveGas cfg col).2, c = .calculateGas := by
  intro c hc
  by_cases hg : cfg.gas ≠ "" ∧ cfg.gas ≠ "auto"
  · rcases hp : parseUint64 cfg.gas with _ | g <;>
      simp [resolveGas, hg, hp] at hc
  · rcases hcg : col.calculateGas with e | g <;>
      · simp [resolveGas, hg, hcg] at hc
        simp [hc]

theorem resolveGasFee_calls {cfg : ClientConfig} {col : Collab} :
    ∀ c ∈ (resolveGasFee cfg col).2, c = .calculateGas := by
  intro c hc
  unfold resolveGasFee at hc
  by_cases hcf : cfg.fees ≠ [] ∧ cfg.gasPrices ≠ []
  · rw [if_pos hcf] at hc
    simp at hc
  · rw [if_neg hcf] at hc
    rcases mem_andThen hc with h | ⟨x, h⟩
    · exact resolveGas_calls c h
    · simp at h

theorem prepareAndBuild_calls {cfg : ClientConfig} {col : Collab}
    {addr : String} {n : Nat} :
    ∀ c ∈ (prepareAndBuild cfg col addr n).2,
      c = .ensureExists addr ∨ c = .getAccountNumberSequence addr ∨
        c = .calculateGas := by
  intro c hc
  unfold prepareAndBuild at hc
  rcases mem_andThen hc with h | ⟨ns, h⟩
  · rcases prepareFactory_calls c h with h2 | h2
    · exact Or.inl h2
    · exact Or.inr (Or.inl h2)
  · rcases mem_andThen h with h2 | ⟨gf, h2⟩
    · exact Or.inr (Or.inr (resolveGasFee_calls c h2))
    · by_cases hn : n = 0 <;> simp [hn] at h2

theorem prepareAndBuild_count_balance {cfg : ClientConfig} {col : Collab}
    {addr : String} {n : Nat} :
    (prepareAndBuild cfg col addr n).2.countP isBalanceQuery = 0 := by
  refine List.countP_eq_zero.mpr ?_
  intro c hc
  rcases prepareAndBuild_calls c hc with h | h | h <;> subst h <;> simp [isBalanceQuery]

theorem prepareAndBuild_count_transfer {cfg : ClientConfig} {col : Collab}
    {addr : String} {n : Nat} :
    (prepareAndBuild cfg col addr n).2.countP isFaucetTransfer = 0 := by
  refine List.countP_eq_zero.mpr ?_
  intro c hc
  rcases prepareAndBuild_calls c hc with h | h | h <;> subst h <;>
    simp [isFaucetTransfer]

theorem gate_count_calc (cfg : ClientConfig) (col : Collab) (addr : String) :
    ((if cfg.useFaucet then
        makeSureAccountHasTokens addr cfg.faucetDenom cfg.faucetMinAmount
          col.balances col.transfer
      else (.ok (), [])) : Step Unit).2.countP isCalculateGas = 0 := by
  by_cases h : cfg.useFaucet
  · rw [if_pos h]
    refine List.countP_eq_zero.mpr ?_
    intro c hc
    rcases gate_calls c hc with h2 | h2 <;> subst h2 <;> simp [isCalculateGas]
  · rw [if_neg h]
    rfl

/-- Claim C1 is false as stated: with both a fee and a gas price
configured, CreateTx does fail with "cannot provide both fees and gas
prices", but only after the account-existence check and the sequence
fetch, so the failure does not precede every network call. -/
theorem c1_counterexample :
    createTx
      { fees := [{ denom := "token", amount := 10 }],
        gasPrices := [{ denom := "token", amount := 3 }],
        gas := "300000", gasAdjustment := 1, useFaucet := false,
        faucetDenom := "token", faucetMinAmount := 100 }
      { balances := [], transfer := .ok (), ensureExistsErr := none,
        accountNumberSeq := .ok (1, 2), calculateGas := .ok 42 }
      "cosmos1addr" 1
      = (.error conflictMsg,
         [.ensureExists "cosmos1addr",
          .getAccountNumberSequence "cosmos1addr"])
    ∧ ([NetCall.ensureExists "cosmos1addr",
        NetCall.getAccountNumberSequence "cosmos1addr"] : List NetCall) ≠ [] :=
  ⟨rfl, by simp⟩

/-- Claim C1 (amended): for every configuration with both a fee and a gas
price set, whenever the funding gate (if enabled) and the account checks
succeed, CreateTx fails with "cannot provide both fees and gas prices",
but only after the account-existence check and the sequence fetch (and
any funding-gate queries) have been made: the conflict is detected during
gas and fee resolution, not before any network call. -/
theorem c1_conflict_error_after_prepare
    (cfg : ClientConfig) (col : Collab) (addr : String) (n : Nat)
    (ns : Nat × Nat)
    (hf : cfg.fees ≠ []) (hp : cfg.gasPrices ≠ [])
    (hgate : cfg.useFaucet = true →
      (makeSureAccountHasTokens addr cfg.faucetDenom cfg.faucetMinAmount
        col.balances col.transfer).1 = .ok ())
    (he : col.ensureExistsErr = none)
    (ha : col.accountNumberSeq = .ok ns) :
    (createTx cfg col addr n).1 = .error conflictMsg ∧
    ∃ pre, (createTx cfg col addr n).2
      = pre ++ [.ensureExists addr, .getAccountNumberSequence addr] := by
  have hpb : prepareAndBuild cfg col addr n
      = (.error conflictMsg,
         [.ensureExists addr, .getAccountNumberSequence addr]) := by
    unfold prepareAndBuild
    rw [andThen_ok _
      (show prepareFactory addr col
          = (.ok ns, [.ensureExists addr, .getAccountNumberSequence addr]) by
        simp [prepareFactory, he, ha])]
    rw [andThen_error _
      (show resolveGasFee cfg col = (.error conflictMsg, []) by
        simp [resolveGasFee, hf, hp])]
    simp
  by_cases hfc : cfg.useFaucet
  · rcases hms : makeSureAccountHasTokens addr cfg.faucetDenom
        cfg.faucetMinAmount col.balances col.transfer with ⟨r, trg⟩
    have hr : r = .ok () := by
      have h0 := hgate hfc
      rw [hms] at h0
      exact h0
    subst hr
    have hct : createTx cfg col addr n
        = (.error conflictMsg,
           trg ++ [.ensureExists addr, .getAccountNumberSequence addr]) := by
      unfold createTx
      rw [if_pos hfc, hms, andThen_ok _ rfl]
      simp [hpb]
    rw [hct]
    exact ⟨rfl, trg, rfl⟩
  · have hct : createTx cfg col addr n
        = (.error conflictMsg,
           [.ensureExists addr, .getAccountNumberSequence addr]) := by
      unfold createTx
      rw [if_neg hfc, andThen_ok _ rfl]
      simp [hpb]
    rw [hct]
    exact ⟨rfl, [], rfl⟩

/-- Witness for the amended claim C1 at a concrete faucet-enabled
configuration whose gate and account checks succeed. -/
theorem c1_witness :
    (createTx
      { fees := [{ denom := "token", amount := 10 }],
        gasPrices := [{ denom := "token", amount := 3 }],
        gas := "300000", gasAdjustment := 1, useFaucet := true,
        faucetDenom := "token", faucetMinAmount := 100 }
      { balances := [100], transfer := .ok (), ensureExistsErr := none,
        accountNumberSeq := .ok (1, 2), calculateGas := .ok 42 }
      "cosmos1bob" 1).1 = .error conflictMsg ∧
    ∃ pre, (createTx
      { fees := [{ denom := "token", amount := 10 }],
        gasPrices := [{ denom := "token", amount := 3 }],
        gas := "300000", gasAdjustment := 1, useFaucet := true,
        faucetDenom := "token", faucetMinAmount := 100 }
      { balances := [100], transfer := .ok (), ensureExistsErr := none,
        accountNumberSeq := .ok (1, 2), calculateGas := .ok 42 }
      "cosmos1bob" 1).2
      = pre ++ [.ensureExists "cosmos1bob",
                .getAccountNumberSequence "cosmos1bob"] :=
  c1_conflict_error_after_prepare _ _ "cosmos1bob" 1 (1, 2)
    (by simp) (by simp) (fun _ => rfl) rfl rfl

/-- Claim C2 is false as stated: with the empty gas configuration and the
default gas adjustment 1, the gasometer reports 42 but the produced
transaction carries gas limit 20042, which is not 42 times the
adjustment. -/
theorem c2_counterexample :
    ((createTx
      { fees := [], gasPrices := [], gas := "", gasAdjustment := 1,
        useFaucet := false, faucetDenom := "token", faucetMinAmount := 100 }
      { balances := [], transfer := .ok (), ensureExistsErr := none,
        accountNumberSeq := .ok (1, 2), calculateGas := .ok 42 }
      "cosmos1addr" 1).1.map Tx.gasLimit = .ok 20042)
    ∧ (20042 : Nat) ≠ 1 * 42 :=
  ⟨rfl, by decide⟩

/-- Claim C2 (amended): for every gas configuration that is the empty
string or "auto", a successful CreateTx invokes the gas estimator exactly
once, and the final gas limit equals the estimator's reported gas-units
value plus the fixed buffer of 20000 (the gas-adjustment factor is applied
inside the estimation collaborator, not by CreateTx). -/
theorem c2_auto_gas_buffer
    (cfg : ClientConfig) (col : Collab) (addr : String) (n g : Nat)
    (tx : Tx) (tr : List NetCall)
    (hgas : cfg.gas = "" ∨ cfg.gas = "auto")
    (hcg : col.calculateGas = .ok g)
    (h : createTx cfg col addr n = (.ok tx, tr)) :
    tx.gasLimit = g + simulationGasBuffer ∧
      tr.countP isCalculateGas = 1 := by
  unfold createTx at h
  obtain ⟨u, tr1, tr2, hgate, h2, htr⟩ := andThen_eq_ok h
  unfold prepareAndBuild at h2
  obtain ⟨ns, trp, tr3, hprep, h3, htr2⟩ := andThen_eq_ok h2
  obtain ⟨gf, trg, tr4, hrgf, h4, htr3⟩ := andThen_eq_ok h3
  by_cases hn : n = 0
  · rw [if_pos hn] at h4
    simp at h4
  · rw [if_neg hn] at h4
    have htx : tx.gasLimit = gf.1 := by
      have h0 := congrArg Prod.fst h4
      simp at h0
      rw [← h0]
    have hga := (resolveGasFee_eq_ok hrgf).1
    rw [resolveGas_auto hgas hcg] at hga
    have hgf1 : gf.1 = g + simulationGasBuffer := by
      have h0 := congrArg Prod.fst hga
      simpa using h0.symm
    have htrg : trg = [.calculateGas] := (congrArg Prod.snd hga).symm
    have htr4 : tr4 = [] := by
      have h0 := congrArg Prod.snd h4
      simpa using h0
    have htr1 : tr1.countP isCalculateGas = 0 := by
      have h0 : _ = tr1 := congrArg Prod.snd hgate
      rw [← h0]
      exact gate_count_calc cfg col addr
    have htrp : trp = [.ensureExists addr, .getAccountNumberSequence addr] :=
      (prepareFactory_eq_ok hprep).2.2
    subst htr htr2 htr3 htr4 htrg htrp
    refine ⟨by rw [htx, hgf1], ?_⟩
    simp [List.countP_append, htr1, isCalculateGas]

/-- Witness for the amended claim C2 at the counterexample configuration:
the gas limit is 42 + 20000 and the trace holds one CalculateGas call. -/
theorem c2_witness :
    Tx.gasLimit
        { msgCount := 1, gasLimit := 20042, fee := [], accountNumber := 1,
          sequence := 2 }
      = 42 + simulationGasBuffer ∧
    ([NetCall.ensureExists "cosmos1addr",
      NetCall.getAccountNumberSequence "cosmos1addr",
      NetCall.calculateGas] : List NetCall).countP isCalculateGas = 1 :=
  c2_auto_gas_buffer
    { fees := [], gasPrices := [], gas := "", gasAdjustment := 1,
      useFaucet := false, faucetDenom := "token", faucetMinAmount := 100 }
    { balances := [], transfer := .ok (), ensureExistsErr := none,
      accountNumberSeq := .ok (1, 2), calculateGas := .ok 42 }
    "cosmos1addr" 1 42 _ _ (Or.inl rfl) rfl rfl

/-- Claim C3: for every configuration with gas prices set and no fee
string, the fee of the transaction produced by CreateTx is, per denom, the
per-unit gas price times the final gas limit of that same transaction
(so the fee is a function of the finalized gas limit, also when the limit
came from estimation). -/
theorem c3_gas_price_fee
    (cfg : ClientConfig) (col : Collab) (addr : String) (n : Nat)
    (tx : Tx) (tr : List NetCall)
    (hf : cfg.fees = []) (_hp : cfg.gasPrices ≠ [])
    (h : createTx cfg col addr n = (.ok tx, tr)) :
    tx.fee = cfg.gasPrices.map
      (fun c => { denom := c.denom, amount := c.amount * tx.gasLimit }) := by
  unfold createTx at h
  obtain ⟨u, tr1, tr2, hgate, h2, htr⟩ := andThen_eq_ok h
  unfold prepareAndBuild at h2
  obtain ⟨ns, trp, tr3, hprep, h3, htr2⟩ := andThen_eq_ok h2
  obtain ⟨gf, trg, tr4, hrgf, h4, htr3⟩ := andThen_eq_ok h3
  by_cases hn : n = 0
  · rw [if_pos hn] at h4
    simp at h4
  · rw [if_neg hn] at h4
    have h0 := congrArg Prod.fst h4
    simp at h0
    have htx1 : tx.gasLimit = gf.1 := by rw [← h0]
    have htx2 : tx.fee = gf.2 := by rw [← h0]
    have hfee := (resolveGasFee_eq_ok hrgf).2
    rw [htx2, hfee, if_neg (by simp [hf]), htx1]

/-- Witness for claim C3: gas price 3token with literal gas 300000 yields
the fee 900000token of TestClientCreateTx. -/
theorem c3_witness :
    Tx.fee
        { msgCount := 1, gasLimit := 300000,
          fee := [{ denom := "token", amount := 900000 }],
          accountNumber := 1, sequence := 2 }
      = List.map
          (fun c : Coin =>
            { denom := c.denom,
              amount := c.amount * Tx.gasLimit
                { msgCount := 1, gasLimit := 300000,
                  fee := [{ denom := "token", amount := 900000 }],
                  accountNumber := 1, sequence := 2 } })
          [{ denom := "token", amount := 3 }] :=
  c3_gas_price_fee
    { fees := [], gasPrices := [{ denom := "token", amount := 3 }],
      gas := "300000", gasAdjustment := 1, useFaucet := false,
      faucetDenom := "token", faucetMinAmount := 100 }
    { balances := [], transfer := .ok (), ensureExistsErr := none,
      accountNumberSeq := .ok (1, 2), calculateGas := .ok 42 }
    "cosmos1addr" 1 _ _ rfl (by simp) rfl

theorem prepareAndBuild_balances {cfg : ClientConfig} {addr : String}
    {n : Nat} {t : Except String Unit} {ee : Option String}
    {ans : Except String (Nat × Nat)} {cg : Except String Nat}
    (bs bs2 : List Nat) :
    prepareAndBuild cfg ⟨bs, t, ee, ans, cg⟩ addr n
      = prepareAndBuild cfg ⟨bs2, t, ee, ans, cg⟩ addr n := rfl

/-- Claim C4: with the funding gate enabled, when the first queried
balance meets the configured minimum the funding service is never called
and the balance is queried exactly once; when it is below the minimum,
Transfer is called exactly once and the balance is re-queried exactly once
afterward (the trace starts balance query, transfer, balance query), and
CreateTx proceeds identically whatever the re-queried balance is. -/
theorem c4_funding_gate
    (cfg : ClientConfig) (col : Collab) (addr : String) (n b : Nat)
    (rest : List Nat)
    (hfc : cfg.useFaucet = true) :
    (cfg.faucetMinAmount ≤ b →
      ((createTx cfg { col with balances := b :: rest } addr n).2.countP
          isBalanceQuery = 1 ∧
       (createTx cfg { col with balances := b :: rest } addr n).2.countP
          isFaucetTransfer = 0)) ∧
    (b < cfg.faucetMinAmount → col.transfer = .ok () →
      ∀ b2 b3 : Nat,
      ((createTx cfg { col with balances := b :: b2 :: rest } addr n).2.countP
          isBalanceQuery = 2 ∧
       (createTx cfg { col with balances := b :: b2 :: rest } addr n).2.countP
          isFaucetTransfer = 1 ∧
       (∃ tl, (createTx cfg { col with balances := b :: b2 :: rest } addr n).2
          = .balanceQuery addr cfg.faucetDenom :: .faucetTransfer addr ::
            .balanceQuery addr cfg.faucetDenom :: tl) ∧
       createTx cfg { col with balances := b :: b2 :: rest } addr n
         = createTx cfg { col with balances := b :: b3 :: rest } addr n)) := by
  rcases col with ⟨bs, t, ee, ans, cg⟩
  constructor
  · intro hb
    rcases hpb : prepareAndBuild cfg ⟨b :: rest, t, ee, ans, cg⟩ addr n
      with ⟨r, trp⟩
    have hstep : createTx cfg ⟨b :: rest, t, ee, ans, cg⟩ addr n
        = (r, .balanceQuery addr cfg.faucetDenom :: trp) := by
      simp [createTx, hfc, makeSureAccountHasTokens, hb, andThen, hpb]
    have hcb : trp.countP isBalanceQuery = 0 := by
      have h0 : _ = trp := congrArg Prod.snd hpb
      rw [← h0]
      exact prepareAndBuild_count_balance
    have hct : trp.countP isFaucetTransfer = 0 := by
      have h0 : _ = trp := congrArg Prod.snd hpb
      rw [← h0]
      exact prepareAndBuild_count_transfer
    rw [hstep]
    constructor
    · simp [List.countP_cons, hcb, isBalanceQuery]
    · simp [List.countP_cons, hct, isFaucetTransfer]
  · intro hb ht b2 b3
    have hble : ¬(cfg.faucetMinAmount ≤ b) := Nat.not_le.mpr hb
    subst ht
    rcases hpb : prepareAndBuild cfg ⟨b :: b2 :: rest, .ok (), ee, ans, cg⟩ addr n
      with ⟨r, trp⟩
    have hstep : createTx cfg ⟨b :: b2 :: rest, .ok (), ee, ans, cg⟩ addr n
        = (r, .balanceQuery addr cfg.faucetDenom :: .faucetTransfer addr ::
              .balanceQuery addr cfg.faucetDenom :: trp) := by
      simp [createTx, hfc, makeSureAccountHasTokens, hble, andThen, hpb]
    have hpb3 : prepareAndBuild cfg ⟨b :: b3 :: rest, .ok (), ee, ans, cg⟩ addr n
        = (r, trp) := by
      rw [prepareAndBuild_balances (b :: b3 :: rest) (b :: b2 :: rest), hpb]
    have hstep3 : createTx cfg ⟨b :: b3 :: rest, .ok (), ee, ans, cg⟩ addr n
        = (r, .balanceQuery addr cfg.faucetDenom :: .faucetTransfer addr ::
              .balanceQuery addr cfg.faucetDenom :: trp) := by
      simp [createTx, hfc, makeSureAccountHasTokens, hble, andThen, hpb3]
    have hcb : trp.countP isBalanceQuery = 0 := by
      have h0 : _ = trp := congrArg Prod.snd hpb
      rw [← h0]
      exact prepareAndBuild_count_balance
    have hct : trp.countP isFaucetTransfer = 0 := by
      have h0 : _ = trp := congrArg Prod.snd hpb
      rw [← h0]
      exact prepareAndBuild_count_transfer
    rw [hstep, hstep3]
    refine ⟨?_, ?_, ⟨trp, rfl⟩, rfl⟩
    · simp [List.countP_cons, hcb, isBalanceQuery, isFaucetTransfer]
    · simp [List.countP_cons, hct, isBalanceQuery, isFaucetTransfer]

/-- Witness for claim C4: the below-minimum branch at balance 99 against
minimum 100 makes exactly the three gate calls and is insensitive to the
re-queried balance. -/
theorem c4_witness :
    (createTx
      { fees := [], gasPrices := [], gas := "300000", gasAdjustment := 1,
        useFaucet := true, faucetDenom := "token", faucetMinAmount := 100 }
      { balances := [99, 100], transfer := .ok (), ensureExistsErr := none,
        accountNumberSeq := .ok (1, 2), calculateGas := .ok 42 }
      "cosmos1addr" 1).2.countP isBalanceQuery = 2 ∧
    (createTx
      { fees := [], gasPrices := [], gas := "300000", gasAdjustment := 1,
        useFaucet := true, faucetDenom := "token", faucetMinAmount := 100 }
      { balances := [99, 100], transfer := .ok (), ensureExistsErr := none,
        accountNumberSeq := .ok (1, 2), calculateGas := .ok 42 }
      "cosmos1addr" 1).2.countP isFaucetTransfer = 1 ∧
    (∃ tl, (createTx
      { fees := [], gasPrices := [], gas := "300000", gasAdjustment := 1,
        useFaucet := true, faucetDenom := "token", faucetMinAmount := 100 }
      { balances := [99, 100], transfer := .ok (), ensureExistsErr := none,
        accountNumberSeq := .ok (1, 2), calculateGas := .ok 42 }
      "cosmos1addr" 1).2
        = .balanceQuery "cosmos1addr" "token" :: .faucetTransfer "cosmos1addr" ::
          .balanceQuery "cosmos1addr" "token" :: tl) ∧
    createTx
      { fees := [], gasPrices := [], gas := "300000", gasAdjustment := 1,
        useFaucet := true, faucetDenom := "token", faucetMinAmount := 100 }
      { balances := [99, 100], transfer := .ok (), ensureExistsErr := none,
        accountNumberSeq := .ok (1, 2), calculateGas := .ok 42 }
      "cosmos1addr" 1
      = createTx
      { fees := [], gasPrices := [], gas := "300000", gasAdjustment := 1,
        useFaucet := true, faucetDenom := "token", faucetMinAmount := 100 }
      { balances := [99, 0], transfer := .ok (), ensureExistsErr := none,
        accountNumberSeq := .ok (1, 2), calculateGas := .ok 42 }
      "cosmos1addr" 1 :=
  (c4_funding_gate
    { fees := [], gasPrices := [], gas := "300000", gasAdjustment := 1,
      useFaucet := true, faucetDenom := "token", faucetMinAmount := 100 }
    { balances := [99, 100], transfer := .ok (), ensureExistsErr := none,
      accountNumberSeq := .ok (1, 2), calculateGas := .ok 42 }
    "cosmos1addr" 1 99 [] rfl).2 (by decide) rfl 100 0

/-- Claim C9: whenever the funding gate (if enabled) succeeds and the
account-existence check fails with error e, CreateTx returns exactly e,
with no wrapping or added context. -/
theorem c9_ensure_exists_verbatim
    (cfg : ClientConfig) (col : Collab) (addr : String) (n : Nat)
    (e : String)
    (he : col.ensureExistsErr = some e)
    (hgate : cfg.useFaucet = true →
      (makeSureAccountHasTokens addr cfg.faucetDenom cfg.faucetMinAmount
        col.balances col.transfer).1 = .ok ()) :
    (createTx cfg col addr n).1 = .error e := by
  unfold createTx
  have hpb : prepareAndBuild cfg col addr n = (.error e, [.ensureExists addr]) := by
    unfold prepareAndBuild
    exact andThen_error _ (by simp [prepareFactory, he])
  by_cases hfc : cfg.useFaucet
  · rcases hms : makeSureAccountHasTokens addr cfg.faucetDenom
        cfg.faucetMinAmount col.balances col.transfer with ⟨r, trg⟩
    have hr : r = .ok () := by
      have h0 := hgate hfc
      rw [hms] at h0
      exact h0
    subst hr
    rw [if_pos hfc, andThen_ok _ rfl]
    simp [hpb]
  · rw [if_neg hfc, andThen_ok _ rfl]
    simp [hpb]

theorem containsSubstr_of_infix {s pat : String}
    (h : pat.toList <:+: s.toList) : containsSubstr s pat = true := by
  unfold containsSubstr
  rw [List.any_eq_true]
  rcases List.infix_iff_prefix_suffix.mp h with ⟨t, hpre, hsuf⟩
  exact ⟨t, (List.mem_tails t s.toList).mpr hsuf,
    List.isPrefixOf_iff_prefix.mpr hpre⟩

/-- Claim C5: for every input string that is not valid hexadecimal,
WaitForTx fails immediately with a hash-decoding error that quotes the
offending input, and it issues no network calls. -/
theorem c5_invalid_hash
    (s e : String) (txr : List (Except String TxResult))
    (st : List StatusResp) (ticks : Nat)
    (hdec : decodeHexString s = .error e) :
    waitForTx s txr st ticks
      = (.error ("unable to decode tx hash " ++ sq ++ s ++ sq ++ ": " ++ e),
         []) ∧
    containsSubstr
        ("unable to decode tx hash " ++ sq ++ s ++ sq ++ ": " ++ e) s
      = true := by
  constructor
  · unfold waitForTx
    rw [hdec]
  · refine containsSubstr_of_infix ?_
    refine ⟨("unable to decode tx hash " ++ sq).toList,
            (sq ++ ": " ++ e).toList, ?_⟩
    simp [String.toList, String.data_append]

/-- Witness for claim C5 at the malformed hash of TestClientWaitForTx:
decoding "zzz" fails on the first invalid byte and no call is made. -/
theorem c5_witness :
    waitForTx "zzz" [] [] 0
      = (.error ("unable to decode tx hash " ++ sq ++ "zzz" ++ sq ++ ": "
          ++ invalidByteMsg (Char.ofNat 122)), []) ∧
    containsSubstr
        ("unable to decode tx hash " ++ sq ++ "zzz" ++ sq ++ ": "
          ++ invalidByteMsg (Char.ofNat 122)) "zzz"
      = true :=
  c5_invalid_hash "zzz" (invalidByteMsg (Char.ofNat 122)) [] [] 0 rfl

/-- Claim C6: for every valid-hex hash, a lookup error containing "not
found" is retried through exactly one wait-for-next-block cycle (one
status query reading the current height h, then WaitForBlockHeight at
h + 1) before the transaction is queried again, and a subsequent
successful lookup returns that result; a lookup error not containing "not
found" is terminal and is returned wrapped with the hash for context. -/
theorem c6_not_found_retry
    (hash : String) (bz : List Nat) (e1 e2 : String) (tx : TxResult)
    (txrest : List (Except String TxResult)) (h : Int)
    (srest st : List StatusResp) (ticks : Nat)
    (wtr : List NetCall) (left : List StatusResp)
    (hdec : decodeHexString hash = .ok bz)
    (hnf : containsSubstr (nodeWrap e1) "not found" = true)
    (hwb : waitForBlockHeight (h + 1) srest ticks = ⟨.ok (), wtr, left⟩)
    (hother : containsSubstr (nodeWrap e2) "not found" = false) :
    waitForTx hash (.error e1 :: .ok tx :: txrest) (.ok h :: srest) ticks
      = (.ok tx, [.txQuery bz] ++ (.statusQuery :: wtr) ++ [.txQuery bz]) ∧
    waitForTx hash (.error e2 :: txrest) st ticks
      = (.error ("fetching tx " ++ sq ++ hash ++ sq ++ ": " ++ nodeWrap e2),
         [.txQuery bz]) := by
  constructor
  · simp [waitForTx, hdec, waitForTxLoop, hnf, waitForNextBlock, hwb]
  · simp [waitForTx, hdec, waitForTxLoop, hother]

/-- Witness for claim C6 at the TestClientWaitForTx scenario: hash "abcd",
one not-found lookup, heights 1 then 2, then a successful lookup; and the
terminal error "oups". -/
theorem c6_witness :
    waitForTx "abcd"
        [.error "tx abcd not found", .ok { hash := [171, 205] }]
        [.ok 1, .ok 2] 1
      = (.ok { hash := [171, 205] },
         [.txQuery [171, 205]] ++ (.statusQuery :: [.statusQuery])
           ++ [.txQuery [171, 205]]) ∧
    waitForTx "abcd" [.error "oups"] [] 1
      = (.error ("fetching tx " ++ sq ++ "abcd" ++ sq ++ ": "
          ++ nodeWrap "oups"),
         [.txQuery [171, 205]]) :=
  c6_not_found_retry "abcd" [171, 205] "tx abcd not found" "oups"
    { hash := [171, 205] } [] 1 [.ok 2] [] 1 [.statusQuery] []
    rfl rfl rfl rfl

/-- Claim C7: WaitForBlockHeight returns success at the first status
report at or above the target, polling once per earlier too-low report;
and when every report within the deadline stays below the target it
returns the timeout error naming the waited-for condition and the
deadline cause. -/
theorem c7_wait_block_height :
    (∀ (target : Int) (pre : List StatusResp) (h : Int)
        (rest : List StatusResp) (ticks : Nat),
      (∀ x ∈ pre, ∃ hh, x = .ok hh ∧ hh < target) →
      target ≤ h →
      pre.length ≤ ticks →
      (waitForBlockHeight target (pre ++ .ok h :: rest) ticks).result
          = .ok () ∧
        (waitForBlockHeight target (pre ++ .ok h :: rest) ticks).calls.length
          = pre.length + 1) ∧
    (∀ (target : Int) (sts : List StatusResp) (ticks : Nat),
      (∀ x ∈ sts.take (ticks + 1), ∃ hh, x = .ok hh ∧ hh < target) →
      ticks + 1 ≤ sts.length →
      (waitForBlockHeight target sts ticks).result = .error timeoutMsg) := by
  constructor
  · intro target pre
    induction pre with
    | nil =>
      intro h rest ticks _ hh _
      simp [waitForBlockHeight, hh]
    | cons x pre ih =>
      intro h rest ticks hlow hh hlen
      obtain ⟨hx, hxeq, hxlt⟩ := hlow x (by simp)
      subst hxeq
      rcases ticks with _ | t
      · simp at hlen
      · have hnle : ¬target ≤ hx := not_le.mpr hxlt
        have ihh := ih h rest t (fun y hy => hlow y (by simp [hy]))
          hh (Nat.succ_le_succ_iff.mp hlen)
        simp [waitForBlockHeight, hnle, ihh.1, ihh.2]
  · intro target sts
    induction sts with
    | nil =>
      intro ticks _ hlen
      simp at hlen
    | cons x rest ih =>
      intro ticks hlow hlen
      obtain ⟨hx, hxeq, hxlt⟩ := hlow x (by simp)
      subst hxeq
      have hnle : ¬target ≤ hx := not_le.mpr hxlt
      rcases ticks with _ | t
      · simp [waitForBlockHeight, hnle]
      · have ihh := ih t
          (fun y hy => hlow y (by
            rw [List.take_succ_cons]
            exact List.mem_cons_of_mem _ hy))
          (Nat.succ_le_succ_iff.mp hlen)
        simp [waitForBlockHeight, hnle, ihh]

/-- Witness for claim C7 at the TestClientWaitForBlockHeight scenarios:
target 42 reached after one too-low report, and a timeout when every
report stays at 41. -/
theorem c7_witness :
    ((waitForBlockHeight 42 ([.ok 41] ++ .ok 42 :: []) 2).result = .ok () ∧
     (waitForBlockHeight 42 ([.ok 41] ++ .ok 42 :: []) 2).calls.length
       = 1 + 1) ∧
    (waitForBlockHeight 42 [.ok 41, .ok 41] 1).result = .error timeoutMsg :=
  ⟨c7_wait_block_height.1 42 [.ok 41] 42 [] 2
      (by
        intro x hx
        simp at hx
        subst hx
        exact ⟨41, rfl, by decide⟩)
      (by decide) (by decide),
   c7_wait_block_height.2 42 [.ok 41, .ok 41] 1
      (by
        intro x hx
        simp at hx
        subst hx
        exact ⟨41, rfl, by decide⟩)
      (by decide)⟩

/-- Witness for claim C9: with the faucet enabled, a passing balance check
and EnsureExists failing with "nope", CreateTx returns exactly "nope". -/
theorem c9_witness :
    (createTx
      { fees := [], gasPrices := [], gas := "300000", gasAdjustment := 1,
        useFaucet := true, faucetDenom := "token", faucetMinAmount := 100 }
      { balances := [100], transfer := .ok (), ensureExistsErr := some "nope",
        accountNumberSeq := .ok (1, 2), calculateGas := .ok 42 }
      "cosmos1addr" 1).1 = .error "nope" :=
  c9_ensure_exists_verbatim _ _ "cosmos1addr" 1 "nope" rfl
    (fun _ => rfl)

end cosmosclient

namespace cosmosclient

/-- Claim C8: an identifier that decodes as a valid bech32 address under
the configured prefix is resolved by address, with a miss reported as the
keyring does-not-exist error; any other identifier is resolved by name in
the keyring; and the bech32 decode error surfaced when a non-address
identifier is also absent from the keyring is distinguishable from the
does-not-exist error of a failed address lookup. -/
theorem c8_account_resolution
    (decode : String → Except String Unit) (kr : Keyring) (id : String)
    (a : Account) (u : Unit) (e : String) :
    (decode id = .ok u → kr.byAddress id = some a →
        resolveAccount decode kr id = .ok a) ∧
    (decode id = .ok u → kr.byAddress id = none →
        resolveAccount decode kr id = .error (notExistMsg id)) ∧
    (decode id = .error e → kr.byName id = some a →
        resolveAccount decode kr id = .ok a) ∧
    (decode id = .error e → kr.byName id = none →
        resolveAccount decode kr id = .error e) ∧
    (("decoding bech32 failed").toList.isPrefixOf e.toList = true →
        e ≠ notExistMsg id) := by
  refine ⟨?_, ?_, ?_, ?_, ?_⟩
  · intro hd ha
    simp [resolveAccount, hd, ha]
  · intro hd ha
    simp [resolveAccount, hd, ha]
  · intro hd hn
    simp [resolveAccount, hd, hn]
  · intro hd hn
    simp [resolveAccount, hd, hn]
  · intro hpre heq
    subst heq
    rcases List.isPrefixOf_iff_prefix.mp hpre with ⟨t, ht⟩
    have hda := congrArg List.head? ht
    have h2 : (("decoding bech32 failed").toList ++ t).head? = some 'd' := rfl
    have h3 : (notExistMsg id).toList.head? = some 'a' := rfl
    rw [h2, h3] at hda
    simp at hda

/-- Witness for claim C8 at the TestClientAccount scenarios: the unknown
name "unknown" surfaces the bech32 decode error, which differs from the
does-not-exist error. -/
theorem c8_witness :
    resolveAccount
        (fun s => if s = "cosmos1valid" then Except.ok ()
          else Except.error
            "decoding bech32 failed: invalid bech32 string length 7")
        { byName := fun s => if s = "bob"
            then some { name := "bob", address := "cosmos1valid" } else none,
          byAddress := fun s => if s = "cosmos1valid"
            then some { name := "bob", address := "cosmos1valid" } else none }
        "unknown"
      = .error "decoding bech32 failed: invalid bech32 string length 7" ∧
    ("decoding bech32 failed: invalid bech32 string length 7" : String)
      ≠ notExistMsg "unknown" :=
  ⟨(c8_account_resolution
      (fun s => if s = "cosmos1valid" then Except.ok ()
        else Except.error
          "decoding bech32 failed: invalid bech32 string length 7")
      { byName := fun s => if s = "bob"
          then some { name := "bob", address := "cosmos1valid" } else none,
        byAddress := fun s => if s = "cosmos1valid"
          then some { name := "bob", address := "cosmos1valid" } else none }
      "unknown" { name := "bob", address := "cosmos1valid" } ()
      "decoding bech32 failed: invalid bech32 string length 7").2.2.2.1
      rfl rfl,
   (c8_account_resolution
      (fun s => if s = "cosmos1valid" then Except.ok ()
        else Except.error
          "decoding bech32 failed: invalid bech32 string length 7")
      { byName := fun s => if s = "bob"
          then some { name := "bob", address := "cosmos1valid" } else none,
        byAddress := fun s => if s = "cosmos1valid"
          then some { name := "bob", address := "cosmos1valid" } else none }
      "unknown" { name := "bob", address := "cosmos1valid" } ()
      "decoding bech32 failed: invalid bech32 string length 7").2.2.2.2
      rfl⟩

end cosmosclient

namespace query

/-- Claim C10: AtPage selects page p for positive p and page 1 for p = 0;
New and NewCall start at page 1 with page size DefaultPageSize (30); and
every query reachable through these constructors and combinators has a
current page of at least 1. -/
theorem c10_paging_invariant :
    (∀ (q : Query) (p : Nat), 0 < p → (q.AtPage p).GetAtPage = p) ∧
    (∀ q : Query, (q.AtPage 0).GetAtPage = 1) ∧
    (∀ (e : Nat) (f : List Nat),
      (New e f).GetAtPage = 1 ∧ (New e f).GetPageSize = 30) ∧
    (∀ c : Call, (NewCall c).GetAtPage = 1 ∧ (NewCall c).GetPageSize = 30) ∧
    (∀ q : Query, Reachable q → 1 ≤ q.GetAtPage) := by
  refine ⟨?_, ?_, ?_, ?_, ?_⟩
  · intro q p hp
    simp [Query.AtPage, Query.GetAtPage, Nat.pos_iff_ne_zero.mp hp]
  · intro q
    simp [Query.AtPage, Query.GetAtPage]
  · intro e f
    exact ⟨rfl, rfl⟩
  · intro c
    exact ⟨rfl, rfl⟩
  · intro q hq
    induction hq with
    | new e f => exact le_refl 1
    | newCall c => exact le_refl 1
    | atPage q p _ ih =>
      by_cases hp : p = 0
      · simp [Query.AtPage, Query.GetAtPage, hp]
      · simp only [Query.AtPage, Query.GetAtPage, if_neg hp]
        exact Nat.one_le_iff_ne_zero.mpr hp
    | withPageSize q s _ ih =>
      by_cases hs : s = 0 <;>
        simpa [Query.WithPageSize, Query.GetAtPage, hs] using ih
    | withoutPaging q _ ih =>
      simpa [Query.WithoutPaging, Query.GetAtPage] using ih
    | appendSortBy q o f _ ih =>
      simpa [Query.AppendSortBy, Query.GetAtPage] using ih
    | appendFilters q f _ ih =>
      simpa [Query.AppendFilters, Query.GetAtPage] using ih

/-- Witness for claim C10: page 7 is kept by AtPage and a combinator chain
stays at a positive page. -/
theorem c10_witness :
    ((New 1 []).AtPage 7).GetAtPage = 7 ∧
    1 ≤ (((New 1 []).AtPage 7).WithoutPaging).GetAtPage :=
  ⟨c10_paging_invariant.1 (New 1 []) 7 (by decide),
   c10_paging_invariant.2.2.2.2 _
     (Reachable.withoutPaging _ (Reachable.atPage _ 7 (Reachable.new 1 [])))⟩

end query
